import Mathlib

/-!
Verification development for the Sheikh-AI backend (src/backend/main.py).

The file shallowly embeds the parts of `main.py` that the documented
properties talk about:

* the question-answering entry point `IslamicChatbot.answer_question`
  (lines 391-431) together with the HTTP route `chat` (lines 449-458);
* the hadith pagination helper `IslamicChatbot.fetch_all_hadiths`
  (lines 98-188);
* the ingestion routine `IslamicChatbot.load_data` (lines 190-364),
  split into its Quran phase (lines 197-232) and its hadith phase
  (lines 236-343).

External effects (HTTP requests, `time.sleep`, the LLM chain) are modelled
by oracles passed in as functions, and each embedded loop additionally
returns a trace of the requests it issued and of the sleeps it performed,
so that statements about the number of attempts and about delays are
expressible.  Python exceptions are modelled with `Except`.
-/

set_option autoImplicit false

/-! ### Python string helpers

`str.strip()` with no argument removes leading and trailing whitespace.
Only the ASCII whitespace characters are modelled (Python additionally
strips some Unicode space characters, which never appear in the constants
of this program). -/

/-- Whitespace characters stripped by Python `str.strip()` (ASCII part). -/
def isPySpace (c : Char) : Bool :=
  c = ' ' || c = '\t' || c = '\n' || c = '\r' || c = '\x0b' || c = '\x0c'

/-- Model of Python `s.strip()`: drop whitespace from both ends. -/
def pyStrip (s : String) : String :=
  String.mk ((((s.data.dropWhile isPySpace).reverse).dropWhile isPySpace).reverse)

/-! ### The answering service: `IslamicChatbot.answer_question` (lines 391-431)

`self.qa_chain` is `None` until `setup_qa_chain` ran, hence an
`Option`-valued oracle.  Invoking the chain may raise (modelled by
`Except String`, the `String` being Python `str(e)`), and on success
returns either a dict (whose `result` key may be absent, raising
`KeyError` on lookup) or a non-dict value that is converted by `str`. -/

/-- Result of `self.qa_chain.invoke({"query": question})` (line 408). -/
inductive ChainResp where
  /-- the response is a dict; the field is the value at key `result`
      if present (`response["result"]` raises `KeyError` when absent) -/
  | dict (result : Option String)
  /-- the response is not a dict; `str(response)` is taken (line 413) -/
  | nonDict (s : String)
deriving DecidableEq

/-- Line 413: `response["result"] if isinstance(response, dict) else str(response)`.
A missing key raises `KeyError`; Python would render the message with the
key wrapped in single quotes. -/
def answerOf : ChainResp → Except String String
  | .dict (some r) => .ok r
  | .dict none => .error "KeyError: result"
  | .nonDict s => .ok s

/-- The `Dict[str, str]` returned by `answer_question`: the three keys that
can occur, each possibly absent. -/
structure PyDict where
  status : Option String
  answer : Option String
  error : Option String
deriving DecidableEq

/-- Embedding of `IslamicChatbot.answer_question` (lines 391-431).

The first component is the returned dict; the second component counts how
often the QA chain was invoked (0 or 1), making "no retrieval or
generation happened" statable.  All exception paths inside the `try`
(lines 399-431) are caught by `except Exception` and turned into an error
dict, so the embedding is a total function. -/
def answer_question (qaChain : Option (String → Except String ChainResp))
    (question : String) : PyDict × Nat :=
  match qaChain with
  | none =>
    -- lines 393-397: `if not self.qa_chain`
    (⟨some "error", none, some "QA chain not initialized. Please call setup_qa_chain() first."⟩, 0)
  | some chain =>
    -- line 401: `if not question.strip()`
    if pyStrip question = "" then
      (⟨some "error", none, some "Please provide a valid question."⟩, 0)
    else
      match chain question with
      | .error e =>
        -- lines 427-431: `except Exception as e`
        (⟨some "error", none, some ("An error occurred: " ++ e)⟩, 1)
      | .ok resp =>
        match answerOf resp with
        | .error e => (⟨some "error", none, some ("An error occurred: " ++ e)⟩, 1)
        | .ok answer =>
          -- line 416: `if not answer or len(answer.strip()) < 10`
          if answer = "" ∨ (pyStrip answer).length < 10 then
            (⟨some "error", none, some "Generated response was invalid or too short."⟩, 1)
          else
            -- lines 422-425
            (⟨some "success", some answer, none⟩, 1)

/-! ### The HTTP route: `chat` (lines 449-458)

The body of the route is a `try` block; on a non-success result it raises
`HTTPException(status_code=400, ...)`.  `fastapi.HTTPException` derives
from `Exception`, so this raise is caught by the blanket
`except Exception as e` of the very same `try`, which re-raises
`HTTPException(status_code=500, detail=str(e))`. -/

/-- Exceptions that can occur inside the `try` of `chat`. -/
inductive ChatExc where
  /-- `HTTPException(status_code, detail)`; `detail=None` is replaced by
      the standard status phrase (starlette behaviour) -/
  | http (status_code : Nat) (detail : Option String)
  /-- `response["answer"]` raising `KeyError` -/
  | keyError (k : String)
deriving DecidableEq

/-- Standard HTTP status phrases used when `detail is None`. -/
def statusPhrase (code : Nat) : String :=
  if code = 400 then "Bad Request"
  else if code = 500 then "Internal Server Error"
  else ""

/-- Python `str(e)` for the exceptions of `ChatExc`; starlette renders an
`HTTPException` as the status code, a colon and the detail. -/
def strOfChatExc : ChatExc → String
  | .http code detail =>
    let d := detail.getD (statusPhrase code)
    s!"{code}: {d}"
  | .keyError k => "KeyError: " ++ k

/-- An HTTPException escaping the route handler. -/
structure HttpError where
  status_code : Nat
  detail : String
deriving DecidableEq

/-- The `try` body of `chat` (lines 451-456). -/
def chatTry (qaChain : Option (String → Except String ChainResp))
    (question : String) : Except ChatExc String :=
  let response := (answer_question qaChain question).1
  -- line 453: `if response.get("status") == "success"`
  if response.status = some "success" then
    match response.answer with
    | some a => .ok a                       -- line 454: `return {"answer": ...}`
    | none => .error (.keyError "answer")   -- `response["answer"]` with key absent
  else
    -- line 456: `raise HTTPException(status_code=400, detail=response.get("error"))`
    .error (.http 400 response.error)

/-- Embedding of the route `chat` (lines 449-458): `Sum.inl a` is the JSON
body `{"answer": a}` of a 200 response, `Sum.inr` is the `HTTPException`
that escapes the handler.  Any exception of the `try` body, including the
explicitly raised 400, is caught at line 457 and re-raised as a 500. -/
def chat (qaChain : Option (String → Except String ChainResp))
    (question : String) : Sum String HttpError :=
  match chatTry qaChain question with
  | .ok a => .inl a
  | .error e => .inr ⟨500, strOfChatExc e⟩

/-! ### The hadith pagination helper: `IslamicChatbot.fetch_all_hadiths` (lines 98-188)

The helper loops `while True` over pages; for each page it loops
`for attempt in range(max_retries)` over attempts.  The HTTP oracle
`respond` maps a page number and an attempt index to an outcome. -/

/-- One hadith object of the flat response shape read by
`fetch_all_hadiths` (lines 140-144).  Each field is the value found at
the corresponding key, `none` when the key is absent (Python `.get`
defaults apply at formatting time). -/
structure PyHadith where
  hadithNumber : Option String
  chapter : Option String
  status : Option String
  hadithArabic : Option String
  hadithEnglish : Option String
deriving DecidableEq

/-- Lines 139-154: formatting of one hadith into a document. -/
def formatHadithDoc (collection : String) (h : PyHadith) : String :=
  let num := h.hadithNumber.getD "N/A"
  let chap := h.chapter.getD "N/A"
  let st := (h.status.getD "").toLower
  let grade := st.toUpper
  let ar := h.hadithArabic.getD ""
  let en := h.hadithEnglish.getD ""
  s!"Hadith: {collection}\nGrade: {grade}\nNumber: {num}\nChapter: {chap}\nArabic: {ar}\nEnglish: {en}"

/-- Outcome of one `requests.get` of `fetch_all_hadiths`:
either a response with a status code and (for 200 responses) the list
found under the `hadiths` key of the decoded body, or a raised exception
(network failure, JSON decode failure, ...), which line 181 catches. -/
inductive ApiResult where
  | resp (status_code : Nat) (hadiths : List PyHadith)
  | exc
deriving DecidableEq

/-- How the attempt loop for one page ended. -/
inductive PageResult where
  /-- 200 with a non-empty record list: records appended, `page += 1`,
      `time.sleep(1)`, `break` (lines 138-162) -/
  | more (hadiths : List PyHadith)
  /-- a `return documents` path: empty page (line 136), terminal status
      401/403/404 (lines 164-172), or retries exhausted (lines 179, 188) -/
  | stop
  /-- the `for` loop ran out of attempt indices without returning or
      breaking (only possible for `max_retries = 0`): control falls back
      to `while True` -/
  | fellThrough
deriving DecidableEq

/-- Trace and result of the attempt loop for one page. -/
structure AttemptsOut where
  result : PageResult
  /-- attempt indices for which a request was issued, in order -/
  requests : List Nat
  /-- durations of the `time.sleep` calls performed, in order -/
  sleeps : List Nat
deriving DecidableEq

/-- The attempt loop of `fetch_all_hadiths` (lines 105-188) for one page,
run on a list of remaining attempt indices (called with
`List.range maxRetries`; the Python guard `attempt < max_retries - 1`
holds exactly when the remaining list after the current index is
non-empty). -/
def fetch_all_hadiths_attempts (respond : Nat → ApiResult) (retryDelay : Nat) :
    List Nat → AttemptsOut
  | [] => ⟨.fellThrough, [], []⟩
  | a :: rest =>
    match respond a with
    | .resp code hadiths =>
      if code = 200 then
        -- lines 124-162
        if hadiths.isEmpty then ⟨.stop, [a], []⟩
        else ⟨.more hadiths, [a], [1]⟩
      else if code = 401 then ⟨.stop, [a], []⟩    -- lines 164-166
      else if code = 403 then ⟨.stop, [a], []⟩    -- lines 167-169
      else if code = 404 then ⟨.stop, [a], []⟩    -- lines 170-172
      else if rest.isEmpty then ⟨.stop, [a], []⟩  -- lines 173-179, last attempt
      else
        let o := fetch_all_hadiths_attempts respond retryDelay rest
        ⟨o.result, a :: o.requests, retryDelay :: o.sleeps⟩
    | .exc =>
      -- lines 181-188
      if rest.isEmpty then ⟨.stop, [a], []⟩
      else
        let o := fetch_all_hadiths_attempts respond retryDelay rest
        ⟨o.result, a :: o.requests, retryDelay :: o.sleeps⟩

/-- An outcome is retryable for `fetch_all_hadiths` when it is an
exception or a status code outside {200, 401, 403, 404}. -/
def hadithRetryable : ApiResult → Bool
  | .exc => true
  | .resp code _ => decide (code ≠ 200 ∧ code ≠ 401 ∧ code ≠ 403 ∧ code ≠ 404)

/-- The request parameters built at lines 110-116 of `fetch_all_hadiths`. -/
structure FetchAllHadithsParams where
  apiKey : String
  book : String
  status : String
  paginate : Nat
  page : Nat
deriving DecidableEq

/-- Lines 110-116: parameters of the page request, with the
`sahih,hasan` grade filter. -/
def fetch_all_hadiths_params (apiKey collection : String) (page : Nat) :
    FetchAllHadithsParams :=
  ⟨apiKey, collection, "sahih,hasan", 25, page⟩

/-- The `while True` pagination loop of `fetch_all_hadiths` (lines
104-188), with explicit fuel bounding the number of `while` iterations
(`none` means the fuel ran out before the loop returned).  Returns the
accumulated documents, the issued requests as (page, attempt) pairs, and
the sleep durations in order. -/
def fetch_all_hadiths_aux (respond : Nat → Nat → ApiResult) (collection : String)
    (maxRetries retryDelay : Nat) :
    Nat → Nat → List String → List (Nat × Nat) → List Nat →
    Option (List String × List (Nat × Nat) × List Nat)
  | 0, _, _, _, _ => none
  | fuel + 1, page, docs, reqs, sleeps =>
    let o := fetch_all_hadiths_attempts (respond page) retryDelay (List.range maxRetries)
    let reqs2 := reqs ++ o.requests.map (fun a => (page, a))
    let sleeps2 := sleeps ++ o.sleeps
    match o.result with
    | .more hadiths =>
      fetch_all_hadiths_aux respond collection maxRetries retryDelay fuel (page + 1)
        (docs ++ hadiths.map (formatHadithDoc collection)) reqs2 sleeps2
    | .stop => some (docs, reqs2, sleeps2)
    | .fellThrough =>
      fetch_all_hadiths_aux respond collection maxRetries retryDelay fuel page docs reqs2 sleeps2

/-- Embedding of `fetch_all_hadiths` (lines 98-188): pages start at 1. -/
def fetch_all_hadiths (respond : Nat → Nat → ApiResult) (collection : String)
    (maxRetries retryDelay fuel : Nat) :
    Option (List String × List (Nat × Nat) × List Nat) :=
  fetch_all_hadiths_aux respond collection maxRetries retryDelay fuel 1 [] [] []

/-! ### The Quran phase of `load_data` (lines 197-232)

For each surah 1..114, one request fetches a dual-edition payload:
`data['data'][0]['ayahs']` is the original-language edition and
`data['data'][1]['ayahs']` the translation edition.  Only
`requests.exceptions.RequestException` is caught (line 228); any other
exception, in particular the `IndexError` of a misaligned pairing and a
JSON decode failure, propagates out of `load_data` (line 362 re-raises). -/

/-- A decoded dual-edition surah payload: the ayah texts of the two
editions requested at line 206 (`quran-uthmani`, then `en.asad`). -/
structure SurahPayload where
  ayahsArabic : List String
  ayahsEnglish : List String
deriving DecidableEq

/-- Outcome of the surah request at lines 205-208: a response with a
status code and (used only on 200) the result of `response.json()`
(`Except.error` when decoding raises, which is not caught), or a raised
`requests.exceptions.RequestException`. -/
inductive QuranResult where
  | resp (status_code : Nat) (body : Except Unit SurahPayload)
  | reqExc

/-- Lines 215-219: the document built for one ayah. -/
def fmtVerse (surah idx : Nat) (arabic english : String) : String :=
  s!"Quran {surah}:{idx}\nArabic: {arabic}\nEnglish: {english}"

/-- Lines 212-220: `for ayah_idx, ayah in enumerate(data['data'][0]['ayahs'], 1)`
pairing each original-language ayah with
`data['data'][1]['ayahs'][ayah_idx - 1]`.  An out-of-range index raises
`IndexError`, modelled by `Except.error ()`. -/
def pairLoop (surah : Nat) (english : List String) :
    List String → Nat → Except Unit (List String)
  | [], _ => .ok []
  | a :: rest, idx =>
    match english.get? (idx - 1) with
    | none => .error ()
    | some e =>
      match pairLoop surah english rest (idx + 1) with
      | .error u => .error u
      | .ok docs => .ok (fmtVerse surah idx a e :: docs)

/-- Index-aligned pairing, stopping at the shorter edition: the documents
the Quran fetch produces for one surah when no `IndexError` occurs. -/
def pairedDocs (surah : Nat) : Nat → List String → List String → List String
  | _, [], _ => []
  | _, _ :: _, [] => []
  | idx, a :: as, e :: es => fmtVerse surah idx a e :: pairedDocs surah (idx + 1) as es

/-- The attempt loop for one surah (lines 202-232), on a list of remaining
attempt indices (called with `List.range maxRetries`).  Returns the
documents of the surah, the attempt indices requested and the sleep
durations; `Except.error ()` models an exception that is not caught by
the `except requests.exceptions.RequestException` handler and so
propagates out of `load_data`.  Note that every non-200 status is
retried: there is no special case for 401/403/404 here. -/
def load_data_quran_attempts (respond : Nat → QuranResult) (surah retryDelay : Nat) :
    List Nat → Except Unit (List String × List Nat × List Nat)
  | [] => .ok ([], [], [])
  | a :: rest =>
    match respond a with
    | .resp code body =>
      if code = 200 then
        match body with
        | .error _ => .error ()      -- JSON decode raised: not caught
        | .ok p =>
          match pairLoop surah p.ayahsEnglish p.ayahsArabic 1 with
          | .error u => .error u     -- IndexError: not caught
          | .ok docs => .ok (docs, [a], [])   -- line 221: `break`
      else
        -- lines 222-226: any non-200 status
        if rest.isEmpty then .ok ([], [a], [])
        else
          match load_data_quran_attempts respond surah retryDelay rest with
          | .error u => .error u
          | .ok (docs, reqs, sleeps) => .ok (docs, a :: reqs, retryDelay :: sleeps)
    | .reqExc =>
      -- lines 228-232
      if rest.isEmpty then .ok ([], [a], [])
      else
        match load_data_quran_attempts respond surah retryDelay rest with
        | .error u => .error u
        | .ok (docs, reqs, sleeps) => .ok (docs, a :: reqs, retryDelay :: sleeps)

/-- An outcome is retryable for the Quran loop when it is a
`RequestException` or any non-200 status. -/
def quranRetryable : QuranResult → Bool
  | .reqExc => true
  | .resp code _ => decide (code ≠ 200)

/-- The surah loop of `load_data` (lines 201-232): surahs 1..114 in
order, accumulating documents; an uncaught exception aborts the whole
phase (and, by the re-raise at line 364, all of `load_data`). -/
def load_data_quran_phase (respond : Nat → Nat → QuranResult)
    (maxRetries retryDelay : Nat) : Except Unit (List String) :=
  (List.range 114).foldlM
    (fun docs i =>
      match load_data_quran_attempts (respond (i + 1)) (i + 1) retryDelay
          (List.range maxRetries) with
      | .error u => .error u
      | .ok (d, _, _) => .ok (docs ++ d))
    []

/-! ### The hadith phase of `load_data` (lines 236-343)

Crucially, this phase does not call `fetch_all_hadiths`: for each
collection of `['sahih-bukhari', 'sahih-muslim']` (line 247) it issues a
single request (lines 252-271) whose parameters carry no page number and
whose grade filter is `'sahih'` only (line 256, commented "Simplified to
just sahih for testing"), processes at most one page of results, and
moves on to the next collection.  There is no retry loop and no
pagination loop.  A raised request exception is not caught locally and
propagates to line 362, which re-raises, aborting `load_data`. -/

/-- One hadith object of the nested response shape read by the hadith
phase of `load_data` (lines 288-316).  Each field is the value found at
the corresponding (possibly nested) key, `none` when absent; the Python
`.get` defaults are applied by `formatLoadHadith`. -/
structure LoadHadith where
  bookName : Option String
  writerName : Option String
  chapterNumber : Option String
  chapterEnglish : Option String
  chapterArabic : Option String
  status : Option String
  volume : Option String
  hadithNumber : Option String
  headingEnglish : Option String
  headingArabic : Option String
  englishNarrator : Option String
  hadithArabic : Option String
  hadithEnglish : Option String
deriving DecidableEq

/-- Lines 290-316: formatting of one hadith of the nested shape; note
the default for a missing `bookName` is the collection slug (line 292). -/
def formatLoadHadith (collection : String) (h : LoadHadith) : String :=
  let bn := h.bookName.getD collection
  let wn := h.writerName.getD "N/A"
  let gr := h.status.getD "N/A"
  let vol := h.volume.getD "N/A"
  let num := h.hadithNumber.getD "N/A"
  let cn := h.chapterNumber.getD "N/A"
  let ce := h.chapterEnglish.getD "N/A"
  let ca := h.chapterArabic.getD "N/A"
  let he := h.headingEnglish.getD ""
  let ha := h.headingArabic.getD ""
  let narr := h.englishNarrator.getD ""
  let ar := h.hadithArabic.getD ""
  let en := h.hadithEnglish.getD ""
  s!"Hadith: {bn}\nWriter: {wn}\nGrade: {gr}\nVolume: {vol}\nNumber: {num}\nChapter: {cn} - {ce}\nChapter (Arabic): {ca}\nHeading: {he}\nHeading (Arabic): {ha}\nNarrator: {narr}\nArabic: {ar}\nEnglish: {en}\nReference: {bn} Volume {vol}, Hadith {num}"

/-- Outcome of the single request issued for one collection by the
hadith phase of `load_data` (lines 263-343). -/
inductive LoadHadithOutcome where
  /-- 200 with a decodable body: the list at `data['hadiths']['data']`
      and the page number at `data['hadiths']['current_page']` -/
  | ok (hadiths : List LoadHadith) (current_page : Nat)
  /-- 200 but `response.json()` raised `json.JSONDecodeError`
      (caught at line 326: `continue`) -/
  | badJson
  /-- a non-200 status code (401, 403, 404 and the catch-all branch all
      execute `continue`, lines 331-343) -/
  | status (code : Nat)
  /-- `requests.get` raised: not caught locally, propagates to the
      re-raise at line 362 and aborts `load_data` -/
  | exc

/-- The request parameters built at lines 253-257: grade filter
`'sahih'` only, and no page parameter at all. -/
structure LoadHadithParams where
  apiKey : String
  book : String
  status : String
deriving DecidableEq

/-- Lines 253-257 of `load_data`. -/
def load_data_hadith_params (apiKey collection : String) : LoadHadithParams :=
  ⟨apiKey, collection, "sahih"⟩

/-- The collection loop of the hadith phase of `load_data` (lines
248-343).  Returns the list of issued requests (their parameters, one
request per collection by construction, mirroring the absence of any
pagination loop in the source) and either the accumulated documents or
`Except.error ()` when a request exception aborted `load_data`. -/
def load_data_hadith_phase (apiKey : String)
    (respond : String → LoadHadithOutcome) :
    List String → List LoadHadithParams × Except Unit (List String)
  | [] => ([], .ok [])
  | c :: cs =>
    let p := load_data_hadith_params apiKey c
    match respond c with
    | .exc => ([p], .error ())
    | .ok hadiths _current_page =>
      let docs := if hadiths.isEmpty then [] else hadiths.map (formatLoadHadith c)
      let rest := load_data_hadith_phase apiKey respond cs
      (p :: rest.1, rest.2.map (fun ds => docs ++ ds))
    | .badJson =>
      let rest := load_data_hadith_phase apiKey respond cs
      (p :: rest.1, rest.2)
    | .status _ =>
      let rest := load_data_hadith_phase apiKey respond cs
      (p :: rest.1, rest.2)

/-- The collections iterated by `load_data` (line 247). -/
def loadDataCollections : List String := ["sahih-bukhari", "sahih-muslim"]

/-- The retry bound set at line 193 of `load_data`. -/
def loadDataMaxRetries : Nat := 3

/-- The retry delay set at line 194 of `load_data` (seconds). -/
def loadDataRetryDelay : Nat := 2

/-! ### Concrete sample records used by witnesses and counterexamples -/

/-- A sample hadith of the flat shape. -/
def demoPyHadith : PyHadith :=
  ⟨some "1", some "Revelation", some "sahih", some "ar", some "en"⟩

/-- A sample hadith of the nested shape. -/
def demoLoadHadith : LoadHadith :=
  ⟨some "Sahih Bukhari", some "Imam Bukhari", some "1", some "Revelation",
   some "chapterAr", some "Sahih", some "1", some "1", some "", some "",
   some "Narrated Umar", some "ar", some "en"⟩

/-- A sample aligned surah payload. -/
def demoPayload : SurahPayload := ⟨["ar1"], ["en1"]⟩

/-! ## Helper lemmas -/

/-- Stripping the empty string yields the empty string. -/
theorem pyStrip_empty : pyStrip "" = "" := rfl

/-! ## Claims about the answering service and the HTTP route -/

/-- C8: for every question string, calling `answer_question` while the QA
chain was never initialized (`self.qa_chain` is `None`) returns the
uninitialized error dict and never invokes the chain: no retrieval or
generation happens. -/
theorem answer_question_uninitialized_errors (q : String) :
    answer_question none q =
      (⟨some "error", none, some "QA chain not initialized. Please call setup_qa_chain() first."⟩, 0) :=
  rfl

/-- C7: for every question that is empty or whitespace-only (its Python
`strip()` is empty), `answer_question` on an initialized service returns
the invalid-question error dict with zero chain invocations, so neither
retrieval nor generation runs. -/
theorem answer_question_whitespace_rejected_without_chain
    (chain : String → Except String ChainResp) (q : String)
    (h : pyStrip q = "") :
    answer_question (some chain) q =
      (⟨some "error", none, some "Please provide a valid question."⟩, 0) := by
  simp [answer_question, h]

/-- Witness for C7 at the concrete whitespace-only question made of three
spaces. -/
theorem answer_question_whitespace_rejected_without_chain_witness :
    answer_question (some fun _ => .ok (.dict (some "some long enough answer"))) "   " =
      (⟨some "error", none, some "Please provide a valid question."⟩, 0) :=
  answer_question_whitespace_rejected_without_chain _ "   " (by decide)

/-- C10: `answer_question` is total over its error channel: it is a total
function (every exception of the `try` body is converted to a dict), and
for every chain state, chain behaviour and question the returned dict has
`status` equal to `"error"` with an `error` message present, or `status`
equal to `"success"` with an `answer` present. -/
theorem answer_question_total_and_typed
    (qaChain : Option (String → Except String ChainResp)) (q : String) :
    ((answer_question qaChain q).1.status = some "error" ∧
      ((answer_question qaChain q).1.error).isSome = true) ∨
    ((answer_question qaChain q).1.status = some "success" ∧
      ((answer_question qaChain q).1.answer).isSome = true) := by
  match qaChain with
  | none => simp [answer_question]
  | some chain =>
    by_cases hq : pyStrip q = ""
    · simp [answer_question, hq]
    · match hc : chain q with
      | .error e => simp [answer_question, hq, hc]
      | .ok resp =>
        match ha : answerOf resp with
        | .error e => simp [answer_question, hq, hc, ha]
        | .ok answer =>
          by_cases hshort : answer = "" ∨ (pyStrip answer).length < 10
          · simp [answer_question, hq, hc, ha, hshort]
          · simp [answer_question, hq, hc, ha, hshort]

/-- C9 counterexample: the ten-character output consisting of `"ok"`
followed by eight spaces is non-empty and at least 10 characters long,
yet `answer_question` returns an error result for it, because line 416
tests the length of `answer.strip()`, not of `answer`. -/
theorem answer_question_padded_short_output_errors :
    ("ok        " : String) ≠ "" ∧ 10 ≤ ("ok        " : String).length ∧
    (answer_question (some fun _ => .ok (.dict (some "ok        ")))
      "What does the Quran say about patience?").1.status = some "error" := by
  refine ⟨by decide, by decide, ?_⟩
  rfl

/-- C9 (amended): for every generated model output, `answer_question`
returns a success result carrying the generated text verbatim exactly
when the whitespace-stripped output is at least 10 characters long (an
empty output strips to length 0, so non-emptiness is subsumed); an
output whose stripped length is below 10 yields the
invalid-generation error result instead. -/
theorem answer_question_success_iff_stripped_length
    (chain : String → Except String ChainResp) (q a : String)
    (hq : pyStrip q ≠ "")
    (hc : chain q = .ok (.dict (some a))) :
    ((answer_question (some chain) q).1.status = some "success" ↔
      10 ≤ (pyStrip a).length) ∧
    (10 ≤ (pyStrip a).length →
      answer_question (some chain) q = (⟨some "success", some a, none⟩, 1)) ∧
    ((pyStrip a).length < 10 →
      answer_question (some chain) q =
        (⟨some "error", none, some "Generated response was invalid or too short."⟩, 1)) := by
  by_cases h10 : 10 ≤ (pyStrip a).length
  · have hguard : ¬(a = "" ∨ (pyStrip a).length < 10) := by
      rintro (rfl | hlt)
      · rw [pyStrip_empty] at h10
        simp at h10
      · omega
    simp [answer_question, hq, hc, answerOf, hguard, h10]
  · have hguard : a = "" ∨ (pyStrip a).length < 10 := .inr (by omega)
    simp [answer_question, hq, hc, answerOf, hguard, h10]

/-- Witness for C9 (amended) at a concrete long output and a concrete
short output is not needed twice: one instantiation discharging both
hypotheses. -/
theorem answer_question_success_iff_stripped_length_witness :
    ((answer_question (some fun _ => .ok (.dict (some "A long enough generated answer.")))
        "What is patience?").1.status = some "success" ↔
      10 ≤ (pyStrip "A long enough generated answer.").length) ∧
    (10 ≤ (pyStrip "A long enough generated answer.").length →
      answer_question (some fun _ => .ok (.dict (some "A long enough generated answer.")))
        "What is patience?" =
        (⟨some "success", some "A long enough generated answer.", none⟩, 1)) ∧
    ((pyStrip "A long enough generated answer.").length < 10 →
      answer_question (some fun _ => .ok (.dict (some "A long enough generated answer.")))
        "What is patience?" =
        (⟨some "error", none, some "Generated response was invalid or too short."⟩, 1)) :=
  answer_question_success_iff_stripped_length _ "What is patience?"
    "A long enough generated answer." (by decide) rfl

/-- C1: the HTTP layer does not map typed error results to 400.  The
route raises `HTTPException(status_code=400, ...)` inside its own `try`,
and the blanket `except Exception` of that `try` catches it and
re-raises a 500 whose detail is the string form of the caught 400.  At
the concrete failing input (an empty question against an initialized
service, which yields a typed error result), the response is a 500, not
a 400. -/
theorem chat_typed_error_result_returns_500 :
    chat (some fun _ => .ok (.dict (some "This is a sufficiently long answer.")))
      "" = .inr ⟨500, "400: Please provide a valid question."⟩ := by
  rfl

/-! ## Helper lemmas about the fetch loops -/

/-- Unfolding of the hadith attempt loop at a 200 response with a
non-empty record list. -/
theorem fah_attempts_success (respond : Nat → ApiResult) (d a : Nat)
    (rest : List Nat) (hs : List PyHadith)
    (h : respond a = .resp 200 hs) (hne : hs.isEmpty = false) :
    fetch_all_hadiths_attempts respond d (a :: rest) = ⟨.more hs, [a], [1]⟩ := by
  simp [fetch_all_hadiths_attempts, h, hne]

/-- Unfolding of the hadith attempt loop at a 200 response with an empty
record list. -/
theorem fah_attempts_empty (respond : Nat → ApiResult) (d a : Nat)
    (rest : List Nat) (h : respond a = .resp 200 []) :
    fetch_all_hadiths_attempts respond d (a :: rest) = ⟨.stop, [a], []⟩ := by
  simp [fetch_all_hadiths_attempts, h]

/-- Unfolding of the hadith attempt loop at a terminal status 401, 403
or 404: the loop returns at once, with no retry and no sleep. -/
theorem fah_attempts_terminal (respond : Nat → ApiResult) (d a : Nat)
    (rest : List Nat) (hs : List PyHadith) (code : Nat)
    (h : respond a = .resp code hs)
    (hcode : code = 401 ∨ code = 403 ∨ code = 404) :
    fetch_all_hadiths_attempts respond d (a :: rest) = ⟨.stop, [a], []⟩ := by
  rcases hcode with rfl | rfl | rfl <;> simp [fetch_all_hadiths_attempts, h]

/-- Unfolding of the hadith attempt loop at a retryable outcome with
attempts remaining: sleep `d` and try again. -/
theorem fah_attempts_retry (respond : Nat → ApiResult) (d a b : Nat)
    (rest : List Nat) (h : hadithRetryable (respond a) = true) :
    fetch_all_hadiths_attempts respond d (a :: b :: rest) =
      ⟨(fetch_all_hadiths_attempts respond d (b :: rest)).result,
        a :: (fetch_all_hadiths_attempts respond d (b :: rest)).requests,
        d :: (fetch_all_hadiths_attempts respond d (b :: rest)).sleeps⟩ := by
  match hr : respond a with
  | .exc => simp [fetch_all_hadiths_attempts, hr]
  | .resp code hs =>
    rw [hr] at h
    simp only [hadithRetryable, decide_eq_true_eq] at h
    obtain ⟨h200, h401, h403, h404⟩ := h
    simp [fetch_all_hadiths_attempts, hr, h200, h401, h403, h404]

/-- Unfolding of the hadith attempt loop at a retryable outcome on the
last attempt: return the accumulated documents, with no further sleep. -/
theorem fah_attempts_last (respond : Nat → ApiResult) (d a : Nat)
    (h : hadithRetryable (respond a) = true) :
    fetch_all_hadiths_attempts respond d [a] = ⟨.stop, [a], []⟩ := by
  match hr : respond a with
  | .exc => simp [fetch_all_hadiths_attempts, hr]
  | .resp code hs =>
    rw [hr] at h
    simp only [hadithRetryable, decide_eq_true_eq] at h
    obtain ⟨h200, h401, h403, h404⟩ := h
    simp [fetch_all_hadiths_attempts, hr, h200, h401, h403, h404]

/-- Unfolding of the pagination loop when the attempt loop yields more
records: append them, record the requests and sleeps, move to the next
page. -/
theorem fah_aux_more (respond : Nat → Nat → ApiResult) (collection : String)
    (maxR d fuel page : Nat) (docs : List String)
    (reqs : List (Nat × Nat)) (sleeps : List Nat)
    (hs : List PyHadith) (reqsA sleepsA : List Nat)
    (h : fetch_all_hadiths_attempts (respond page) d (List.range maxR) =
      ⟨.more hs, reqsA, sleepsA⟩) :
    fetch_all_hadiths_aux respond collection maxR d (fuel + 1) page docs reqs sleeps =
      fetch_all_hadiths_aux respond collection maxR d fuel (page + 1)
        (docs ++ hs.map (formatHadithDoc collection))
        (reqs ++ reqsA.map (fun a => (page, a))) (sleeps ++ sleepsA) := by
  simp [fetch_all_hadiths_aux, h]

/-- Unfolding of the pagination loop when the attempt loop returns:
yield the documents accumulated so far together with the trace. -/
theorem fah_aux_stop (respond : Nat → Nat → ApiResult) (collection : String)
    (maxR d fuel page : Nat) (docs : List String)
    (reqs : List (Nat × Nat)) (sleeps : List Nat)
    (reqsA sleepsA : List Nat)
    (h : fetch_all_hadiths_attempts (respond page) d (List.range maxR) =
      ⟨.stop, reqsA, sleepsA⟩) :
    fetch_all_hadiths_aux respond collection maxR d (fuel + 1) page docs reqs sleeps =
      some (docs, reqs ++ reqsA.map (fun a => (page, a)), sleeps ++ sleepsA) := by
  simp [fetch_all_hadiths_aux, h]

/-- The ayah pairing succeeds and produces the index-aligned documents
whenever the index never leaves the translation edition: this is the
generalized invariant of the `enumerate` loop at lines 212-220. -/
theorem pairLoop_ok_of_le (surah : Nat) (es : List String) (as : List String) :
    ∀ (idx : Nat), 1 ≤ idx → as.length + (idx - 1) ≤ es.length →
      pairLoop surah es as idx = .ok (pairedDocs surah idx as (es.drop (idx - 1))) := by
  induction as with
  | nil => intro idx h1 h2; simp [pairLoop, pairedDocs]
  | cons a as ih =>
    intro idx h1 h2
    have hlt : idx - 1 < es.length := by
      simp only [List.length_cons] at h2; omega
    have hget : es.get? (idx - 1) = some es[idx - 1] := by
      rw [List.get?_eq_getElem?, List.getElem?_eq_getElem hlt]
    have hdrop : es.drop (idx - 1) = es[idx - 1] :: es.drop idx := by
      have h := List.drop_eq_getElem_cons hlt
      rwa [show idx - 1 + 1 = idx by omega] at h
    have hih := ih (idx + 1) (by omega)
      (by simp only [List.length_cons] at h2; simp only [Nat.add_sub_cancel]; omega)
    simp only [pairLoop, hget, hih]
    rw [hdrop]
    simp only [pairedDocs, Nat.add_sub_cancel]

/-- The index-aligned pairing stops at the shorter edition. -/
theorem pairedDocs_length (surah : Nat) (as es : List String) :
    ∀ idx, (pairedDocs surah idx as es).length = min as.length es.length := by
  induction as generalizing es with
  | nil => intro idx; simp [pairedDocs]
  | cons a as ih =>
    intro idx
    cases es with
    | nil => simp [pairedDocs]
    | cons e es => simp [pairedDocs, ih]; omega

/-- Unfolding of the surah attempt loop at a 200 response whose editions
are compatible: the index-aligned documents are produced at once. -/
theorem ldq_attempts_200_ok (respond : Nat → QuranResult) (surah d a : Nat)
    (rest : List Nat) (p : SurahPayload)
    (h : respond a = .resp 200 (.ok p))
    (halign : p.ayahsArabic.length ≤ p.ayahsEnglish.length) :
    load_data_quran_attempts respond surah d (a :: rest) =
      .ok (pairedDocs surah 1 p.ayahsArabic p.ayahsEnglish, [a], []) := by
  have hp := pairLoop_ok_of_le surah p.ayahsEnglish p.ayahsArabic 1 (le_refl 1)
    (by simpa using halign)
  simp only [Nat.sub_self, List.drop_zero] at hp
  simp [load_data_quran_attempts, h, hp]

/-- Unfolding of the surah attempt loop at a retryable outcome with
attempts remaining. -/
theorem ldq_attempts_retry (respond : Nat → QuranResult) (surah d a b : Nat)
    (rest : List Nat) (h : quranRetryable (respond a) = true) :
    load_data_quran_attempts respond surah d (a :: b :: rest) =
      match load_data_quran_attempts respond surah d (b :: rest) with
      | .error u => .error u
      | .ok (docs, reqs, sleeps) => .ok (docs, a :: reqs, d :: sleeps) := by
  match hr : respond a with
  | .reqExc => simp [load_data_quran_attempts, hr]
  | .resp code body =>
    rw [hr] at h
    simp only [quranRetryable, decide_eq_true_eq] at h
    simp [load_data_quran_attempts, hr, h]

/-- Unfolding of the surah attempt loop at a retryable outcome on the
last attempt: the surah contributes nothing, with no further sleep. -/
theorem ldq_attempts_last (respond : Nat → QuranResult) (surah d a : Nat)
    (h : quranRetryable (respond a) = true) :
    load_data_quran_attempts respond surah d [a] = .ok ([], [a], []) := by
  match hr : respond a with
  | .reqExc => simp [load_data_quran_attempts, hr]
  | .resp code body =>
    rw [hr] at h
    simp only [quranRetryable, decide_eq_true_eq] at h
    simp [load_data_quran_attempts, hr, h]

/-- The one-page guard of the hadith phase is immaterial to the produced
documents: an empty page maps to no documents either way. -/
theorem if_isEmpty_map (c : String) (hadiths : List LoadHadith) :
    (if hadiths.isEmpty then [] else hadiths.map (formatLoadHadith c)) =
      hadiths.map (formatLoadHadith c) := by
  cases hadiths <;> simp

/-! ## Claims about the ingestion pipeline -/

/-- C6: the hadith requests actually issued during ingestion do not
carry the `sahih,hasan` grade filter.  Every request issued by the
hadith phase of `load_data` carries the filter `"sahih"` only (line 256,
whose comment reads "Simplified to just sahih for testing"); the
`sahih,hasan` filter only occurs in the parameters built by the dead
helper `fetch_all_hadiths`, which `load_data` never calls. -/
theorem load_data_hadith_status_filter_is_sahih_only
    (apiKey : String) (respond : String → LoadHadithOutcome)
    (cols : List String) (k c : String) (page : Nat) :
    ((load_data_hadith_phase apiKey respond cols).1.all
      (fun p => p.status == "sahih")) = true ∧
    (load_data_hadith_params k c).status = "sahih" ∧
    (fetch_all_hadiths_params k c page).status = "sahih,hasan" := by
  refine ⟨?_, rfl, rfl⟩
  induction cols with
  | nil => rfl
  | cons c cs ih =>
    have ih2 : ∀ p ∈ (load_data_hadith_phase apiKey respond cs).1,
        p.status = "sahih" := by
      simpa [List.all_eq_true] using ih
    cases hr : respond c <;>
        simp [load_data_hadith_phase, load_data_hadith_params,
          List.all_eq_true, hr, ih2] <;>
      exact ih2

/-- C2: the ingestion path requests exactly one page per hadith
collection.  Against an oracle that answers every request with a
non-empty page, the hadith phase of `load_data` issues exactly one
request per collection (its `LoadHadithParams` carry no page number at
all) and finishes, contradicting the claim that a second page is
requested whenever page 1 is non-empty.  The paginating helper
`fetch_all_hadiths` is never invoked by `load_data`. -/
theorem load_data_hadith_single_page_requested :
    (load_data_hadith_phase "key" (fun _ => .ok [demoLoadHadith] 1)
        loadDataCollections).1 =
      [load_data_hadith_params "key" "sahih-bukhari",
       load_data_hadith_params "key" "sahih-muslim"] ∧
    (load_data_hadith_phase "key" (fun _ => .ok [demoLoadHadith] 1)
        loadDataCollections).2 =
      .ok [formatLoadHadith "sahih-bukhari" demoLoadHadith,
           formatLoadHadith "sahih-muslim" demoLoadHadith] := by
  constructor <;> rfl

/-- C3 counterexample: in the Quran fetch, a 404 on the first attempt
does not abandon the surah: all three attempts are issued (requests
`[0, 1, 2]`) and two retry delays of 2 seconds are slept, because the
`else` branch at lines 222-226 treats every non-200 status, including
401/403/404, as retryable.  The claim, which asserts one request and no
retry delay for this input, is therefore false. -/
theorem quran_fetch_404_is_retried :
    load_data_quran_attempts (fun _ => .resp 404 (.ok ⟨[], []⟩)) 1
        loadDataRetryDelay (List.range loadDataMaxRetries) =
      .ok ([], [0, 1, 2], [2, 2]) ∧
    load_data_quran_attempts (fun _ => .resp 404 (.ok ⟨[], []⟩)) 1
        loadDataRetryDelay (List.range loadDataMaxRetries) ≠
      .ok ([], [0], []) := by
  have hEq : load_data_quran_attempts (fun _ => .resp 404 (.ok ⟨[], []⟩)) 1
      loadDataRetryDelay (List.range loadDataMaxRetries) =
      .ok ([], [0, 1, 2], [2, 2]) := rfl
  refine ⟨hEq, fun h => ?_⟩
  have h2 := hEq.symm.trans h
  simp only [Except.ok.injEq, Prod.mk.injEq] at h2
  simp at h2

/-- C3 (amended): in the hadith fetch paths a terminal status 401/403/404
on the first attempt abandons the unit immediately — exactly one request,
no retry and no retry delay — and fetching continues with the next unit
of work (the next collection); in the Quran fetch, by contrast,
401/403/404 are retried like any other non-200 status. -/
theorem hadith_terminal_status_aborts_without_retry
    (code : Nat) (hcode : code = 401 ∨ code = 403 ∨ code = 404)
    (respond : Nat → ApiResult) (hs : List PyHadith)
    (h0 : respond 0 = .resp code hs)
    (apiKey : String) (respond2 : String → LoadHadithOutcome)
    (recs : List LoadHadith)
    (hb : respond2 "sahih-bukhari" = .status code)
    (hm : respond2 "sahih-muslim" = .ok recs 1) :
    fetch_all_hadiths_attempts respond loadDataRetryDelay
        (List.range loadDataMaxRetries) = ⟨.stop, [0], []⟩ ∧
    load_data_hadith_phase apiKey respond2 loadDataCollections =
      ([load_data_hadith_params apiKey "sahih-bukhari",
        load_data_hadith_params apiKey "sahih-muslim"],
       .ok (recs.map (formatLoadHadith "sahih-muslim"))) := by
  constructor
  · rw [show List.range loadDataMaxRetries = 0 :: 1 :: [2] from rfl]
    exact fah_attempts_terminal _ _ _ _ _ _ h0 hcode
  · simp [loadDataCollections, load_data_hadith_phase, hb, hm]
    cases recs <;> simp [Except.map]

/-- Witness for C3 (amended) at the concrete terminal status 404. -/
theorem hadith_terminal_status_aborts_without_retry_witness :
    fetch_all_hadiths_attempts (fun _ => .resp 404 []) loadDataRetryDelay
        (List.range loadDataMaxRetries) = ⟨.stop, [0], []⟩ ∧
    load_data_hadith_phase "key"
        (fun c => if c = "sahih-bukhari" then .status 404
          else .ok [demoLoadHadith] 1)
        loadDataCollections =
      ([load_data_hadith_params "key" "sahih-bukhari",
        load_data_hadith_params "key" "sahih-muslim"],
       .ok ([demoLoadHadith].map (formatLoadHadith "sahih-muslim"))) :=
  hadith_terminal_status_aborts_without_retry 404 (by decide)
    (fun _ => .resp 404 []) [] rfl "key" _ [demoLoadHadith] rfl rfl

/-- C4 counterexample: a dual-edition payload whose original-language
edition has 2 ayahs while the translation edition has 1 makes the
pairing at line 214 raise `IndexError`, which is not caught by the
`except requests.exceptions.RequestException` handler: the surah unit
errors instead of stopping at the shorter length, and the error
propagates through the whole Quran phase (aborting `load_data`), so the
fetch does raise past the fetcher boundary. -/
theorem quran_fetch_longer_original_raises :
    load_data_quran_attempts (fun _ => .resp 200 (.ok ⟨["a", "b"], ["x"]⟩)) 1
        loadDataRetryDelay (List.range loadDataMaxRetries) = .error () ∧
    load_data_quran_phase (fun _ _ => .resp 200 (.ok ⟨["a", "b"], ["x"]⟩))
        loadDataMaxRetries loadDataRetryDelay = .error () := by
  constructor <;> rfl

/-- C4 (amended): for every surah whose dual-edition payload is fetched
successfully and whose translation edition is at least as long as the
original edition, the fetch pairs ayah i of the original edition with
ayah i of the translation edition for every i, stopping at the shorter
(original) length, and no exception escapes; when the original edition
is strictly longer, an `IndexError` propagates past the fetcher boundary
(see the counterexample). -/
theorem quran_fetch_pairs_by_index_up_to_shorter
    (respond : Nat → QuranResult) (surah : Nat) (p : SurahPayload)
    (h0 : respond 0 = .resp 200 (.ok p))
    (halign : p.ayahsArabic.length ≤ p.ayahsEnglish.length) :
    load_data_quran_attempts respond surah loadDataRetryDelay
        (List.range loadDataMaxRetries) =
      .ok (pairedDocs surah 1 p.ayahsArabic p.ayahsEnglish, [0], []) ∧
    (pairedDocs surah 1 p.ayahsArabic p.ayahsEnglish).length =
      min p.ayahsArabic.length p.ayahsEnglish.length := by
  constructor
  · rw [show List.range loadDataMaxRetries = 0 :: 1 :: [2] from rfl]
    exact ldq_attempts_200_ok _ _ _ _ _ _ h0 halign
  · exact pairedDocs_length surah _ _ 1

/-- Witness for C4 (amended) at a concrete aligned payload. -/
theorem quran_fetch_pairs_by_index_up_to_shorter_witness :
    load_data_quran_attempts (fun _ => .resp 200 (.ok demoPayload)) 1
        loadDataRetryDelay (List.range loadDataMaxRetries) =
      .ok (pairedDocs 1 1 demoPayload.ayahsArabic demoPayload.ayahsEnglish, [0], []) ∧
    (pairedDocs 1 1 demoPayload.ayahsArabic demoPayload.ayahsEnglish).length =
      min demoPayload.ayahsArabic.length demoPayload.ayahsEnglish.length :=
  quran_fetch_pairs_by_index_up_to_shorter (fun _ => .resp 200 (.ok demoPayload))
    1 demoPayload rfl (by decide)

/-- C5: the retry bound is exactly 3 attempts with a fixed 2-second delay
between attempts.  For a hadith page unit (in `fetch_all_hadiths`) and a
Quran surah unit (in `load_data`), a transient error on attempts 1 and 2
followed by success on attempt 3 yields the successful result, with
requests `[0, 1, 2]` (exactly three attempts) and retry sleeps `[2, 2]`
(the trailing `1` in the hadith trace is the inter-page pacing sleep);
and a unit that fails on all 3 attempts stops after exactly three
requests, with no fourth attempt, returning whatever records were
accumulated so far (here: the documents of the already-fetched page 1,
respectively no documents for the failed surah). -/
theorem fetch_retry_bound_three_attempts
    (respondS : Nat → Nat → ApiResult) (hs hsF : List PyHadith)
    (hS0 : hadithRetryable (respondS 1 0) = true)
    (hS1 : hadithRetryable (respondS 1 1) = true)
    (hS2 : respondS 1 2 = .resp 200 hs) (hSne : hs.isEmpty = false)
    (hSend : respondS 2 0 = .resp 200 [])
    (respondF : Nat → Nat → ApiResult)
    (hF1 : respondF 1 0 = .resp 200 hsF) (hFne : hsF.isEmpty = false)
    (hF20 : hadithRetryable (respondF 2 0) = true)
    (hF21 : hadithRetryable (respondF 2 1) = true)
    (hF22 : hadithRetryable (respondF 2 2) = true)
    (respondQS : Nat → QuranResult) (surah : Nat) (p : SurahPayload)
    (hQ0 : quranRetryable (respondQS 0) = true)
    (hQ1 : quranRetryable (respondQS 1) = true)
    (hQ2 : respondQS 2 = .resp 200 (.ok p))
    (halign : p.ayahsArabic.length ≤ p.ayahsEnglish.length)
    (respondQF : Nat → QuranResult)
    (hG0 : quranRetryable (respondQF 0) = true)
    (hG1 : quranRetryable (respondQF 1) = true)
    (hG2 : quranRetryable (respondQF 2) = true) :
    fetch_all_hadiths respondS "sahih-bukhari" loadDataMaxRetries loadDataRetryDelay 2 =
      some (hs.map (formatHadithDoc "sahih-bukhari"),
        [(1, 0), (1, 1), (1, 2), (2, 0)], [2, 2, 1]) ∧
    fetch_all_hadiths respondF "sahih-bukhari" loadDataMaxRetries loadDataRetryDelay 2 =
      some (hsF.map (formatHadithDoc "sahih-bukhari"),
        [(1, 0), (2, 0), (2, 1), (2, 2)], [1, 2, 2]) ∧
    load_data_quran_attempts respondQS surah loadDataRetryDelay
        (List.range loadDataMaxRetries) =
      .ok (pairedDocs surah 1 p.ayahsArabic p.ayahsEnglish, [0, 1, 2], [2, 2]) ∧
    load_data_quran_attempts respondQF surah loadDataRetryDelay
        (List.range loadDataMaxRetries) =
      .ok ([], [0, 1, 2], [2, 2]) := by
  have e3 : List.range loadDataMaxRetries = 0 :: 1 :: [2] := rfl
  refine ⟨?_, ?_, ?_, ?_⟩
  · have hA : fetch_all_hadiths_attempts (respondS 1) loadDataRetryDelay
        (List.range loadDataMaxRetries) = ⟨.more hs, [0, 1, 2], [2, 2, 1]⟩ := by
      rw [e3, fah_attempts_retry _ _ _ _ _ hS0, fah_attempts_retry _ _ _ _ _ hS1,
        fah_attempts_success _ _ _ _ _ hS2 hSne]
      rfl
    have hB : fetch_all_hadiths_attempts (respondS 2) loadDataRetryDelay
        (List.range loadDataMaxRetries) = ⟨.stop, [0], []⟩ := by
      rw [e3]
      exact fah_attempts_empty _ _ _ _ hSend
    show fetch_all_hadiths_aux respondS "sahih-bukhari" loadDataMaxRetries
      loadDataRetryDelay (0 + 1 + 1) 1 [] [] [] = _
    rw [fah_aux_more _ _ _ _ _ _ _ _ _ _ _ _ hA,
      fah_aux_stop _ _ _ _ _ _ _ _ _ _ _ hB]
    simp
  · have hA : fetch_all_hadiths_attempts (respondF 1) loadDataRetryDelay
        (List.range loadDataMaxRetries) = ⟨.more hsF, [0], [1]⟩ := by
      rw [e3]
      exact fah_attempts_success _ _ _ _ _ hF1 hFne
    have hB : fetch_all_hadiths_attempts (respondF 2) loadDataRetryDelay
        (List.range loadDataMaxRetries) = ⟨.stop, [0, 1, 2], [2, 2]⟩ := by
      rw [e3, fah_attempts_retry _ _ _ _ _ hF20, fah_attempts_retry _ _ _ _ _ hF21,
        fah_attempts_last _ _ _ hF22]
      rfl
    show fetch_all_hadiths_aux respondF "sahih-bukhari" loadDataMaxRetries
      loadDataRetryDelay (0 + 1 + 1) 1 [] [] [] = _
    rw [fah_aux_more _ _ _ _ _ _ _ _ _ _ _ _ hA,
      fah_aux_stop _ _ _ _ _ _ _ _ _ _ _ hB]
    simp
  · rw [e3, ldq_attempts_retry _ _ _ _ _ _ hQ0, ldq_attempts_retry _ _ _ _ _ _ hQ1,
      ldq_attempts_200_ok _ _ _ _ _ _ hQ2 halign]
    rfl
  · rw [e3, ldq_attempts_retry _ _ _ _ _ _ hG0, ldq_attempts_retry _ _ _ _ _ _ hG1,
      ldq_attempts_last _ _ _ _ hG2]
    rfl

/-- Witness for C5 at concrete oracles: two transient failures then a
success for the hadith page and the Quran surah, and all-transient
oracles for the failing units. -/
theorem fetch_retry_bound_three_attempts_witness :
    fetch_all_hadiths
        (fun page a => if page = 1 then
          (if a ≤ 1 then ApiResult.exc else .resp 200 [demoPyHadith])
          else .resp 200 [])
        "sahih-bukhari" loadDataMaxRetries loadDataRetryDelay 2 =
      some ([demoPyHadith].map (formatHadithDoc "sahih-bukhari"),
        [(1, 0), (1, 1), (1, 2), (2, 0)], [2, 2, 1]) ∧
    fetch_all_hadiths
        (fun page _ => if page = 1 then ApiResult.resp 200 [demoPyHadith]
          else ApiResult.exc)
        "sahih-bukhari" loadDataMaxRetries loadDataRetryDelay 2 =
      some ([demoPyHadith].map (formatHadithDoc "sahih-bukhari"),
        [(1, 0), (2, 0), (2, 1), (2, 2)], [1, 2, 2]) ∧
    load_data_quran_attempts
        (fun a => if a ≤ 1 then QuranResult.reqExc
          else .resp 200 (.ok demoPayload))
        1 loadDataRetryDelay (List.range loadDataMaxRetries) =
      .ok (pairedDocs 1 1 demoPayload.ayahsArabic demoPayload.ayahsEnglish,
        [0, 1, 2], [2, 2]) ∧
    load_data_quran_attempts (fun _ => QuranResult.reqExc) 1 loadDataRetryDelay
        (List.range loadDataMaxRetries) =
      .ok ([], [0, 1, 2], [2, 2]) :=
  fetch_retry_bound_three_attempts
    (fun page a => if page = 1 then
      (if a ≤ 1 then ApiResult.exc else .resp 200 [demoPyHadith])
      else .resp 200 [])
    [demoPyHadith] [demoPyHadith]
    rfl rfl rfl rfl rfl
    (fun page _ => if page = 1 then ApiResult.resp 200 [demoPyHadith]
      else ApiResult.exc)
    rfl rfl rfl rfl rfl
    (fun a => if a ≤ 1 then QuranResult.reqExc
      else .resp 200 (.ok demoPayload))
    1 demoPayload
    rfl rfl rfl (by decide)
    (fun _ => QuranResult.reqExc)
    rfl rfl rfl
